import Mathlib

namespace Pelicanconf

/-- A Python value as it occurs in the configuration file pelicanconf.py:
strings, integers, booleans, None, lists, tuples and string-keyed dicts. -/
inductive PyValue where
  | str (s : String)
  | int (n : Int)
  | bool (b : Bool)
  | none
  | list (xs : List PyValue)
  | tuple (xs : List PyValue)
  | dict (es : List (String × PyValue))
deriving Repr

/-- AUTHOR, line 1 of pelicanconf.py. -/
def AUTHOR : PyValue := .str "Leon Ramzews"

/-- SITENAME, line 2. -/
def SITENAME : PyValue := .str "Road to Dev"

/-- SITEURL, line 3. -/
def SITEURL : PyValue := .str "http://127.0.0.1:8000"

/-- TIMEZONE, line 4. -/
def TIMEZONE : PyValue := .str "Europe/Berlin"

/-- DEFAULT_LANG, line 5. -/
def DEFAULT_LANG : PyValue := .str "en"

/-- SUBTITLE, line 7. -/
def SUBTITLE : PyValue := .str "Hey, my name is Leon."

/-- SUBTEXT, lines 8-11: a triple-quoted string with embedded newlines and a
trailing space on its first line. -/
def SUBTEXT : PyValue := .str "I'm an aspiring programmer. \nThis blog documents the knowledge and insights I gather along the way, sharing my progress and discoveries on the road to dev.\nWritten with the help of GPT.\n"

/-- COPYRIGHT, line 12. -/
def COPYRIGHT : PyValue := .str "©2024"

/-- PATH, line 13. -/
def PATH : PyValue := .str "content"

/-- THEME, line 14. -/
def THEME : PyValue := .str "themes/Papyrus"

/-- THEME_STATIC_PATHS, line 15. -/
def THEME_STATIC_PATHS : PyValue := .list [.str "static"]

/-- PLUGIN_PATHS, line 16. -/
def PLUGIN_PATHS : PyValue := .list [.str "pelican-plugins"]

/-- PLUGINS, line 17. -/
def PLUGINS : PyValue := .list [.str "pelican-toc"]

/-- STATIC_PATHS, lines 18-22. -/
def STATIC_PATHS : PyValue := .list [.str "images", .str "images/favicon.ico", .str "extra/robots.txt"]

/-- EXTRA_PATH_METADATA, lines 23-26. -/
def EXTRA_PATH_METADATA : PyValue := .dict [("extra/robots.txt", .dict [("path", .str "robots.txt")]), ("images/favicon.ico", .dict [("path", .str "favicon.ico")])]

/-- DISPLAY_PAGES_ON_MENU, line 27. -/
def DISPLAY_PAGES_ON_MENU : PyValue := .bool true

/-- DIRECT_TEMPLATES, line 28: the doubled parentheses denote a single
4-tuple of template names. -/
def DIRECT_TEMPLATES : PyValue := .tuple [.str "index", .str "tags", .str "categories", .str "archives"]

/-- PAGINATED_TEMPLATES, line 29. -/
def PAGINATED_TEMPLATES : PyValue := .dict [("index", .none), ("tag", .none), ("category", .none), ("author", .none), ("archives", .int 24)]

/-- TOC, lines 35-43: option map for the pelican-toc plugin. -/
def TOC : PyValue := .dict [("TOC_HEADERS", .str "^h[1-3]"), ("TOC_RUN", .str "true"), ("TOC_INCLUDE_TITLE", .str "false")]

/-- FEED_ALL_ATOM, line 46. -/
def FEED_ALL_ATOM : PyValue := .str "feeds/all.atom.xml"

/-- CATEGORY_FEED_ATOM, line 47. -/
def CATEGORY_FEED_ATOM : PyValue := .none

/-- TRANSLATION_FEED_ATOM, line 48. -/
def TRANSLATION_FEED_ATOM : PyValue := .none

/-- AUTHOR_FEED_ATOM, line 49. -/
def AUTHOR_FEED_ATOM : PyValue := .none

/-- AUTHOR_FEED_RSS, line 50. -/
def AUTHOR_FEED_RSS : PyValue := .none

/-- RSS_FEED_SUMMARY_ONLY, line 51. -/
def RSS_FEED_SUMMARY_ONLY : PyValue := .bool true

/-- SHARE, lines 60-67: the ordered tuple of share-widget entries. -/
def SHARE : PyValue := .tuple [
  .tuple [.str "twitter", .str "https://twitter.com/intent/tweet/?text=Features&amp;url="],
  .tuple [.str "linkedin", .str "https://www.linkedin.com/sharing/share-offsite/?url="],
  .tuple [.str "reddit", .str "https://reddit.com/submit?url="],
  .tuple [.str "facebook", .str "https://facebook.com/sharer/sharer.php?u="],
  .tuple [.str "whatsapp", .str "https://api.whatsapp.com/send?text=Features - "],
  .tuple [.str "telegram", .str "https://telegram.me/share/url?text=Features&amp;url="]]

/-- DEFAULT_PAGINATION, line 69. -/
def DEFAULT_PAGINATION : PyValue := .int 8

/-- An expression on the right-hand side of a module-level assignment.
Every right-hand side in pelicanconf.py is a literal, but the expression
language also has name references so that evaluation has a code path that
can fail (an unbound name) and a dependence on the environment. -/
inductive Expr where
  | lit (v : PyValue)
  | var (name : String)

/-- The only statement form appearing in pelicanconf.py: a module-level
assignment binding a name to an expression. -/
inductive Stmt where
  | assign (name : String) (e : Expr)

/-- The module pelicanconf.py as its ordered sequence of statements. -/
def pelicanStmts : List Stmt := [
  .assign "AUTHOR" (.lit AUTHOR),
  .assign "SITENAME" (.lit SITENAME),
  .assign "SITEURL" (.lit SITEURL),
  .assign "TIMEZONE" (.lit TIMEZONE),
  .assign "DEFAULT_LANG" (.lit DEFAULT_LANG),
  .assign "SUBTITLE" (.lit SUBTITLE),
  .assign "SUBTEXT" (.lit SUBTEXT),
  .assign "COPYRIGHT" (.lit COPYRIGHT),
  .assign "PATH" (.lit PATH),
  .assign "THEME" (.lit THEME),
  .assign "THEME_STATIC_PATHS" (.lit THEME_STATIC_PATHS),
  .assign "PLUGIN_PATHS" (.lit PLUGIN_PATHS),
  .assign "PLUGINS" (.lit PLUGINS),
  .assign "STATIC_PATHS" (.lit STATIC_PATHS),
  .assign "EXTRA_PATH_METADATA" (.lit EXTRA_PATH_METADATA),
  .assign "DISPLAY_PAGES_ON_MENU" (.lit DISPLAY_PAGES_ON_MENU),
  .assign "DIRECT_TEMPLATES" (.lit DIRECT_TEMPLATES),
  .assign "PAGINATED_TEMPLATES" (.lit PAGINATED_TEMPLATES),
  .assign "TOC" (.lit TOC),
  .assign "FEED_ALL_ATOM" (.lit FEED_ALL_ATOM),
  .assign "CATEGORY_FEED_ATOM" (.lit CATEGORY_FEED_ATOM),
  .assign "TRANSLATION_FEED_ATOM" (.lit TRANSLATION_FEED_ATOM),
  .assign "AUTHOR_FEED_ATOM" (.lit AUTHOR_FEED_ATOM),
  .assign "AUTHOR_FEED_RSS" (.lit AUTHOR_FEED_RSS),
  .assign "RSS_FEED_SUMMARY_ONLY" (.lit RSS_FEED_SUMMARY_ONLY),
  .assign "SHARE" (.lit SHARE),
  .assign "DEFAULT_PAGINATION" (.lit DEFAULT_PAGINATION)]

/-- Name lookup in an environment, most recent binding first. -/
def lookupEnv (n : String) : List (String × PyValue) → Option PyValue
  | [] => Option.none
  | (k, v) :: rest => if k = n then some v else lookupEnv n rest

/-- Evaluate an expression in an environment; a reference to an unbound
name fails. -/
def evalExpr (env : List (String × PyValue)) : Expr → Option PyValue
  | .lit v => some v
  | .var n => lookupEnv n env

/-- Run a statement sequence in an initial environment, returning the list
of bindings the module itself makes, in statement order; fails if any
right-hand side fails to evaluate. -/
def runStmts (env : List (String × PyValue)) : List Stmt → Option (List (String × PyValue))
  | [] => some []
  | .assign n e :: rest =>
    match evalExpr env e with
    | some v => (runStmts ((n, v) :: env) rest).map (fun r => (n, v) :: r)
    | Option.none => Option.none

/-- The settings record of pelicanconf.py: its keys in source order, each
bound to its literal value. -/
def pelicanconfRecord : List (String × PyValue) := [
  ("AUTHOR", AUTHOR),
  ("SITENAME", SITENAME),
  ("SITEURL", SITEURL),
  ("TIMEZONE", TIMEZONE),
  ("DEFAULT_LANG", DEFAULT_LANG),
  ("SUBTITLE", SUBTITLE),
  ("SUBTEXT", SUBTEXT),
  ("COPYRIGHT", COPYRIGHT),
  ("PATH", PATH),
  ("THEME", THEME),
  ("THEME_STATIC_PATHS", THEME_STATIC_PATHS),
  ("PLUGIN_PATHS", PLUGIN_PATHS),
  ("PLUGINS", PLUGINS),
  ("STATIC_PATHS", STATIC_PATHS),
  ("EXTRA_PATH_METADATA", EXTRA_PATH_METADATA),
  ("DISPLAY_PAGES_ON_MENU", DISPLAY_PAGES_ON_MENU),
  ("DIRECT_TEMPLATES", DIRECT_TEMPLATES),
  ("PAGINATED_TEMPLATES", PAGINATED_TEMPLATES),
  ("TOC", TOC),
  ("FEED_ALL_ATOM", FEED_ALL_ATOM),
  ("CATEGORY_FEED_ATOM", CATEGORY_FEED_ATOM),
  ("TRANSLATION_FEED_ATOM", TRANSLATION_FEED_ATOM),
  ("AUTHOR_FEED_ATOM", AUTHOR_FEED_ATOM),
  ("AUTHOR_FEED_RSS", AUTHOR_FEED_RSS),
  ("RSS_FEED_SUMMARY_ONLY", RSS_FEED_SUMMARY_ONLY),
  ("SHARE", SHARE),
  ("DEFAULT_PAGINATION", DEFAULT_PAGINATION)]

/-- Escape one character for a double-quoted emitted string literal. -/
def escapeChar (c : Char) : List Char :=
  if c = '"' then ['\\', '"']
  else if c = '\\' then ['\\', '\\']
  else if c = '\n' then ['\\', 'n']
  else [c]

/-- Emit a string as a double-quoted literal. -/
def emitStrLit (s : String) : List Char :=
  '"' :: (s.data.map escapeChar).flatten ++ ['"']

mutual

/-- Emit a Python value back to concrete syntax. -/
def emitVal : PyValue → List Char
  | .str s => emitStrLit s
  | .int n => if n < 0 then '-' :: Nat.toDigits 10 n.natAbs else Nat.toDigits 10 n.toNat
  | .bool b => if b then ['T', 'r', 'u', 'e'] else ['F', 'a', 'l', 's', 'e']
  | .none => ['N', 'o', 'n', 'e']
  | .list xs => '[' :: emitElems xs ++ [']']
  | .tuple [] => ['(', ')']
  | .tuple xs => '(' :: emitElems xs ++ [',', ')']
  | .dict [] => ['{', '}']
  | .dict es => '{' :: emitEntries es ++ ['}']

/-- Emit comma-separated sequence elements. -/
def emitElems : List PyValue → List Char
  | [] => []
  | [v] => emitVal v
  | v :: vs => emitVal v ++ ',' :: ' ' :: emitElems vs

/-- Emit comma-separated dict entries. -/
def emitEntries : List (String × PyValue) → List Char
  | [] => []
  | [(k, v)] => emitStrLit k ++ ':' :: ' ' :: emitVal v
  | (k, v) :: es => emitStrLit k ++ ':' :: ' ' :: emitVal v ++ ',' :: ' ' :: emitEntries es

end

/-- Emit a settings record as assignment lines, one per key. -/
def emitModule : List (String × PyValue) → List Char
  | [] => []
  | (n, v) :: rest => n.data ++ ' ' :: '=' :: ' ' :: emitVal v ++ '\n' :: emitModule rest

/-- Parse the body of a double-quoted string literal up to its closing
quote, undoing the escapes of escapeChar. -/
def parseStrBody : Nat → List Char → Option (List Char × List Char)
  | 0, _ => Option.none
  | _, [] => Option.none
  | fuel + 1, c :: rest =>
    if c = '"' then some ([], rest)
    else if c = '\\' then
      match rest with
      | 'n' :: rest2 => (parseStrBody fuel rest2).map (fun p => ('\n' :: p.1, p.2))
      | '\\' :: rest2 => (parseStrBody fuel rest2).map (fun p => ('\\' :: p.1, p.2))
      | '"' :: rest2 => (parseStrBody fuel rest2).map (fun p => ('"' :: p.1, p.2))
      | _ => Option.none
    else (parseStrBody fuel rest).map (fun p => (c :: p.1, p.2))

/-- Accumulate a run of decimal digits into a natural number. -/
def parseDigits (acc : Nat) : List Char → Nat × List Char
  | [] => (acc, [])
  | c :: rest => if c.isDigit then parseDigits (acc * 10 + (c.toNat - 48)) rest else (acc, c :: rest)

mutual

/-- Parse one Python value from the front of the input. -/
def parseVal : Nat → List Char → Option (PyValue × List Char)
  | 0, _ => Option.none
  | fuel + 1, cs =>
    match cs with
    | '"' :: rest => (parseStrBody rest.length rest).map (fun p => (PyValue.str (String.mk p.1), p.2))
    | 'T' :: 'r' :: 'u' :: 'e' :: rest => some (.bool true, rest)
    | 'F' :: 'a' :: 'l' :: 's' :: 'e' :: rest => some (.bool false, rest)
    | 'N' :: 'o' :: 'n' :: 'e' :: rest => some (.none, rest)
    | '-' :: c :: rest =>
      if c.isDigit then
        match parseDigits (c.toNat - 48) rest with
        | (n, rest2) => some (.int (-(n : Int)), rest2)
      else Option.none
    | '[' :: ']' :: rest => some (.list [], rest)
    | '[' :: rest => (parseListElems fuel rest).map (fun p => (PyValue.list p.1, p.2))
    | '(' :: ')' :: rest => some (.tuple [], rest)
    | '(' :: rest => (parseTupleElems fuel rest).map (fun p => (PyValue.tuple p.1, p.2))
    | '{' :: '}' :: rest => some (.dict [], rest)
    | '{' :: rest => (parseDictEntries fuel rest).map (fun p => (PyValue.dict p.1, p.2))
    | c :: rest =>
      if c.isDigit then
        match parseDigits (c.toNat - 48) rest with
        | (n, rest2) => some (.int (n : Int), rest2)
      else Option.none
    | [] => Option.none

/-- Parse the elements of a non-empty list up to the closing bracket. -/
def parseListElems : Nat → List Char → Option (List PyValue × List Char)
  | 0, _ => Option.none
  | fuel + 1, cs =>
    match parseVal fuel cs with
    | some (v, rest) =>
      match rest with
      | ']' :: rest2 => some ([v], rest2)
      | ',' :: ' ' :: rest2 => (parseListElems fuel rest2).map (fun p => (v :: p.1, p.2))
      | _ => Option.none
    | Option.none => Option.none

/-- Parse the elements of a non-empty tuple up to the trailing comma and
closing parenthesis. -/
def parseTupleElems : Nat → List Char → Option (List PyValue × List Char)
  | 0, _ => Option.none
  | fuel + 1, cs =>
    match parseVal fuel cs with
    | some (v, rest) =>
      match rest with
      | ',' :: ')' :: rest2 => some ([v], rest2)
      | ',' :: ' ' :: rest2 => (parseTupleElems fuel rest2).map (fun p => (v :: p.1, p.2))
      | _ => Option.none
    | Option.none => Option.none

/-- Parse the entries of a non-empty dict up to the closing brace. -/
def parseDictEntries : Nat → List Char → Option (List (String × PyValue) × List Char)
  | 0, _ => Option.none
  | fuel + 1, cs =>
    match cs with
    | '"' :: rest =>
      match parseStrBody rest.length rest with
      | some (kcs, rest2) =>
        match rest2 with
        | ':' :: ' ' :: rest3 =>
          match parseVal fuel rest3 with
          | some (v, rest4) =>
            match rest4 with
            | '}' :: rest5 => some ([(String.mk kcs, v)], rest5)
            | ',' :: ' ' :: rest5 => (parseDictEntries fuel rest5).map (fun p => ((String.mk kcs, v) :: p.1, p.2))
            | _ => Option.none
          | Option.none => Option.none
        | _ => Option.none
      | Option.none => Option.none
    | _ => Option.none

end

/-- Holds when a character may appear in a configuration-key identifier. -/
def isIdentChar (c : Char) : Bool := c.isAlphanum || c = '_'

/-- Parse a whole module: a sequence of assignment lines, yielding the
settings record in statement order. -/
def parseStmtLines : Nat → List Char → Option (List (String × PyValue))
  | _, [] => some []
  | 0, _ => Option.none
  | fuel + 1, cs =>
    match cs.span isIdentChar with
    | (nameChars, rest) =>
      if nameChars.isEmpty then Option.none else
      match rest with
      | ' ' :: '=' :: ' ' :: rest2 =>
        match parseVal (rest2.length + 1) rest2 with
        | some (v, rest3) =>
          match rest3 with
          | '\n' :: rest4 => (parseStmtLines fuel rest4).map (fun r => (String.mk nameChars, v) :: r)
          | _ => Option.none
        | Option.none => Option.none
      | _ => Option.none

/-- Parse emitted module text back into a settings record. -/
def parseModule (cs : List Char) : Option (List (String × PyValue)) :=
  parseStmtLines cs.length cs

/-- Holds of an integer value. -/
def isIntVal : PyValue → Bool
  | .int _ => true
  | _ => false

/-- Holds of an integer or None value. -/
def isIntOrNoneVal : PyValue → Bool
  | .int _ => true
  | .none => true
  | _ => false

/-- Holds of a string value. -/
def isStrVal : PyValue → Bool
  | .str _ => true
  | _ => false

/-- Holds of a string or None value. -/
def isStrOrNoneVal : PyValue → Bool
  | .str _ => true
  | .none => true
  | _ => false

/-- Holds of a boolean value. -/
def isBoolVal : PyValue → Bool
  | .bool _ => true
  | _ => false

/-- Holds of the None value. -/
def isNoneVal : PyValue → Bool
  | .none => true
  | _ => false

/-- Holds when the value is a dict and the predicate holds of every value
in it. -/
def dictValuesAll (p : PyValue → Bool) : PyValue → Bool
  | .dict es => es.all (fun kv => p kv.2)
  | _ => false

/-- The keys of a dict value, in order. -/
def dictKeys : PyValue → List String
  | .dict es => es.map Prod.fst
  | _ => []

/-- Holds when the value is a sequence (list or tuple) and the predicate
holds of every element. -/
def seqAll (p : PyValue → Bool) : PyValue → Bool
  | .list xs => xs.all p
  | .tuple xs => xs.all p
  | _ => false

/-- The string elements of a sequence value, in order. -/
def strElems : PyValue → List String
  | .list xs => xs.filterMap (fun v => match v with | .str s => some s | _ => Option.none)
  | .tuple xs => xs.filterMap (fun v => match v with | .str s => some s | _ => Option.none)
  | _ => []

/-- Holds when the first character list is a prefix of the second. -/
def hasPrefixChars : List Char → List Char → Bool
  | [], _ => true
  | _ :: _, [] => false
  | p :: ps, c :: cs => p = c && hasPrefixChars ps cs

/-- Formalisation of a well-formed share-URL template: an absolute URL with
scheme http or https whose characters are all printable ASCII or non-ASCII
text, with no control characters. -/
def wellFormedUrlTemplate (s : String) : Bool :=
  (hasPrefixChars "http://".data s.data || hasPrefixChars "https://".data s.data) &&
    s.data.all (fun c => 32 ≤ c.toNat)

/-- Holds of a share-widget entry: a pair (2-tuple) of a non-empty platform
name string and a well-formed URL template string. -/
def isShareEntry : PyValue → Bool
  | .tuple [.str name, .str url] => !(name.data.isEmpty) && wellFormedUrlTemplate url
  | _ => false

/-- Modelled from the spec: the contents of the plugin search directory
pelican-plugins are not part of the source tree. Per the spec, the engine
loads the listed plugins from the listed paths, and the plugin list does
not reference a plugin absent from the declared plugin search paths; so the
path pelican-plugins provides the pelican-toc plugin. -/
def pluginsProvidedBy : String → List String
  | "pelican-plugins" => ["pelican-toc"]
  | _ => []

/-- Holds when the named plugin is provided by at least one directory of
the given search-path sequence. -/
def availableFrom (paths : PyValue) (plugin : String) : Bool :=
  (strElems paths).any (fun dir => (pluginsProvidedBy dir).contains plugin)

/-- The name a statement binds. -/
def stmtName : Stmt → String
  | .assign n _ => n

/-- C1: every value of the pagination mapping PAGINATED_TEMPLATES is an
integer or None — in particular never a string — and the default page size
DEFAULT_PAGINATION is an integer. -/
theorem c1_pagination_value_types :
    dictValuesAll isIntOrNoneVal PAGINATED_TEMPLATES = true ∧
    dictValuesAll (fun v => !(isStrVal v)) PAGINATED_TEMPLATES = true ∧
    isIntVal DEFAULT_PAGINATION = true := by
  refine ⟨?_, ?_, ?_⟩ <;> decide

/-- C2: every element of the SHARE sequence is a pair whose first component
is a non-empty platform-name string and whose second component is a
well-formed URL-template string. -/
theorem c2_share_entries_well_formed :
    seqAll isShareEntry SHARE = true := by decide

/-- C3: every plugin identifier listed in PLUGINS is a string naming a
plugin provided by at least one of the directories listed in PLUGIN_PATHS
(the directory contents being modelled from the spec). -/
theorem c3_plugins_available :
    seqAll (fun v => match v with | .str s => availableFrom PLUGIN_PATHS s | _ => false) PLUGINS = true := by
  decide

set_option maxRecDepth 40000 in
/-- C4: re-emitting the settings record of pelicanconf.py as configuration
text and parsing that text again yields the same record (round-trip
stability of parse after emit). -/
theorem c4_emit_parse_round_trip :
    parseModule (emitModule pelicanconfRecord) = some pelicanconfRecord := rfl

/-- C5: each feed-path setting (FEED_ALL_ATOM, CATEGORY_FEED_ATOM,
TRANSLATION_FEED_ATOM, AUTHOR_FEED_ATOM, AUTHOR_FEED_RSS) is a path string
or None, and RSS_FEED_SUMMARY_ONLY is a boolean. -/
theorem c5_feed_setting_types :
    isStrOrNoneVal FEED_ALL_ATOM = true ∧
    isStrOrNoneVal CATEGORY_FEED_ATOM = true ∧
    isStrOrNoneVal TRANSLATION_FEED_ATOM = true ∧
    isStrOrNoneVal AUTHOR_FEED_ATOM = true ∧
    isStrOrNoneVal AUTHOR_FEED_RSS = true ∧
    isBoolVal RSS_FEED_SUMMARY_ONLY = true := by
  refine ⟨?_, ?_, ?_, ?_, ?_, ?_⟩ <;> decide

/-- C6: the module binds every top-level configuration key exactly once —
the statement list consists only of assignments (by the statement grammar
of the file) and its bound names are pairwise distinct, so no key is
rebound, mutated or deleted after its initial assignment. -/
theorem c6_keys_bound_once :
    (pelicanStmts.map stmtName).Nodup ∧
    pelicanconfRecord.map Prod.fst = pelicanStmts.map stmtName := by
  refine ⟨?_, ?_⟩ <;> decide

/-- C7: evaluating the configuration module cannot fail — running every
statement of pelicanconf.py from the empty environment succeeds. -/
theorem c7_evaluation_total :
    (runStmts [] pelicanStmts).isSome = true := rfl

/-- C8: evaluation of the configuration module is deterministic and
input-independent — from any initial environment whatsoever, running the
statements yields the same fixed literal settings record. -/
theorem c8_evaluation_deterministic :
    ∀ env, runStmts env pelicanStmts = some pelicanconfRecord := fun _ => rfl

/-- C9: every key of the EXTRA_PATH_METADATA mapping — exactly
extra/robots.txt and images/favicon.ico — is also an element of the
STATIC_PATHS list. -/
theorem c9_extra_metadata_keys_static :
    dictKeys EXTRA_PATH_METADATA = ["extra/robots.txt", "images/favicon.ico"] ∧
    (dictKeys EXTRA_PATH_METADATA).all (fun k => (strElems STATIC_PATHS).contains k) = true := by
  refine ⟨?_, ?_⟩ <;> decide

/-- C10: exactly one feed is enabled — FEED_ALL_ATOM is the non-null path
string feeds/all.atom.xml while the four other per-type feed settings are
None, and among the five feed-path settings exactly one is non-None. -/
theorem c10_exactly_one_feed_enabled :
    FEED_ALL_ATOM = PyValue.str "feeds/all.atom.xml" ∧
    CATEGORY_FEED_ATOM = PyValue.none ∧
    TRANSLATION_FEED_ATOM = PyValue.none ∧
    AUTHOR_FEED_ATOM = PyValue.none ∧
    AUTHOR_FEED_RSS = PyValue.none ∧
    ([FEED_ALL_ATOM, CATEGORY_FEED_ATOM, TRANSLATION_FEED_ATOM,
      AUTHOR_FEED_ATOM, AUTHOR_FEED_RSS].countP (fun v => !(isNoneVal v))) = 1 :=
  ⟨rfl, rfl, rfl, rfl, rfl, by decide⟩

end Pelicanconf
